import Mathlib

/-!
Verification development for the TCX workout-file utility (`tcx.py`).

The program is a set of typed views (`Workout`, `Lap`, `Track`, `Trackpoint`)
over a single mutable lxml element tree, plus a merge engine, an overlap
checker, a time codec and a scaling operation.  This file embeds those parts
shallowly:

* The element tree is represented by typed nodes.  XML attributes
  (`StartTime`) are plain fields; child elements that the code may find
  missing (`TotalTimeSeconds`, `DistanceMeters`, `Calories` of a lap,
  `Cadence` / `Watts` of a trackpoint) are `Option` fields, because the
  Python getters crash (`AttributeError` / `TypeError`) when
  `TCX.get_element` returns `None`.
* lxml moves an element to its new parent when it is appended or
  slice-assigned into another tree (`parent.extend(...)`,
  `parent[:] = other[:]`).  The embedding performs those moves explicitly:
  the source tree loses the children that the destination gains.
* Numeric element texts (`float(...)` / `int(...)` round-trips through
  `str`) are modeled as exact rationals / integers; IEEE-754 rounding of
  Python floats is abstracted away.
* Timestamps inside the merge engine are abstract instants (`Int`), which
  the time-codec round-trip (proved separately below) justifies.
* Python exceptions are an `Except PyError` result; the functions mirror
  the statement order of the source, so an error is returned at the same
  observation point at which the source raises.
-/

set_option linter.unusedVariables false

deriving instance DecidableEq for Except

namespace Tcx

/-- Python exception outcomes observable from the embedded code:
`ValueError` (with its message), `AttributeError` (an operation on the
`None` returned by a failed element lookup), `TypeError` (`None` used in
arithmetic) and `IndexError` (`[0]` on an empty list). -/
inductive PyError where
  | valueError (msg : String)
  | attributeError
  | typeError
  | indexError
  deriving DecidableEq, Repr

/-- Abstract instant used by the merge engine (`datetime` values compare
and take `min`/`max` linearly; the codec round-trip below shows parsing
and formatting are lossless, so storing the value is faithful). -/
abbrev Time := Int

/-- `Trackpoint` view: `Time` and `DistanceMeters` are read without a
`None` guard by the code paths under study, `Cadence` and `Watts` are
optional (the getters return `None` when the child element is absent). -/
structure TrackpointNode where
  time : Time
  distance : ℚ
  cadence : Option ℚ
  watts : Option ℚ
  deriving DecidableEq, Repr

/-- `Track` view: a grouping of trackpoints. -/
structure TrackNode where
  trackpoints : List TrackpointNode
  deriving DecidableEq, Repr

/-- `Lap` view.  `StartTime` is an XML attribute (never a child element,
hence never moved by child-list operations).  `TotalTimeSeconds`,
`DistanceMeters` and `Calories` are child elements and can be absent after
a structural move, hence `Option`. -/
structure LapNode where
  startTime : Time
  totalSeconds : Option Int
  distanceMeters : Option ℚ
  calories : Option Int
  tracks : List TrackNode
  deriving DecidableEq, Repr

/-- `Workout` view: `Id` text, `Sport` attribute, and the lap list. -/
structure WorkoutNode where
  workoutId : String
  sport : String
  laps : List LapNode
  deriving DecidableEq, Repr

/-- `Lap.trackpoints`: `elements("Trackpoint")` walks the lap subtree in
document order, i.e. tracks in order, trackpoints in order inside each. -/
def lapAllTrackpoints (l : LapNode) : List TrackpointNode :=
  (l.tracks.map TrackNode.trackpoints).flatten

/-- `Lap.finish_time`: `sorted(self.trackpoints, key=time, reverse=True)[0].time`
= the maximal trackpoint time; `IndexError` when the lap has no trackpoints. -/
def lapFinishTime (l : LapNode) : Except PyError Time :=
  match lapAllTrackpoints l with
  | [] => .error .indexError
  | tp :: tps => .ok (tps.foldl (fun m x => max m x.time) tp.time)

/-- `Track.start_time`: minimal trackpoint time; `IndexError` on an empty track. -/
def trackStartTime (t : TrackNode) : Except PyError Time :=
  match t.trackpoints with
  | [] => .error .indexError
  | tp :: tps => .ok (tps.foldl (fun m x => min m x.time) tp.time)

/-- `Track.finish_time`: maximal trackpoint time; `IndexError` on an empty track. -/
def trackFinishTime (t : TrackNode) : Except PyError Time :=
  match t.trackpoints with
  | [] => .error .indexError
  | tp :: tps => .ok (tps.foldl (fun m x => max m x.time) tp.time)

/-- `Workout.start_time`: `sorted(self.laps, key=start_time)[0].start_time`;
the keys are attribute reads (never fail), `[0]` raises `IndexError` when
the workout has no laps. -/
def workoutStartTime (w : WorkoutNode) : Except PyError Time :=
  match w.laps with
  | [] => .error .indexError
  | l :: ls => .ok (ls.foldl (fun m x => min m x.startTime) l.startTime)

/-- `Workout.finish_time`: sorting by `lap.finish_time` evaluates the key on
every lap (each may raise `IndexError`), then `[0]` of the descending order
is the maximum; an empty lap list also raises `IndexError`. -/
def workoutFinishTime (w : WorkoutNode) : Except PyError Time :=
  match w.laps.mapM lapFinishTime with
  | .error e => .error e
  | .ok [] => .error .indexError
  | .ok (f :: fs) => .ok (fs.foldl max f)

/-- The closed-interval overlap test shared by `Workout.overlaps` and
`Lap.overlaps`: `max(a_start, b_start) <= min(a_finish, b_finish)`. -/
def overlapsIntervals (aStart aFinish bStart bFinish : Time) : Bool :=
  max aStart bStart ≤ min aFinish bFinish

/-- `Lap.overlaps`: computes both finish times (each may fail on an empty
lap) then applies the interval test. -/
def lapOverlaps (a b : LapNode) : Except PyError Bool :=
  match lapFinishTime a with
  | .error e => .error e
  | .ok fa =>
    match lapFinishTime b with
    | .error e => .error e
    | .ok fb => .ok (overlapsIntervals a.startTime fa b.startTime fb)

/-- `Workout.overlaps`: start times first, then finish times, then the
interval test (the argument order of `max(...) <= min(...)`). -/
def workoutOverlaps (a b : WorkoutNode) : Except PyError Bool :=
  match workoutStartTime a with
  | .error e => .error e
  | .ok sa =>
    match workoutStartTime b with
    | .error e => .error e
    | .ok sb =>
      match workoutFinishTime a with
      | .error e => .error e
      | .ok fa =>
        match workoutFinishTime b with
        | .error e => .error e
        | .ok fb => .ok (overlapsIntervals sa fa sb fb)

/-- `int(self.element("TotalTimeSeconds").text)`: `AttributeError` when the
element is absent (`None.text`). -/
def lapTotalSeconds (l : LapNode) : Except PyError Int :=
  match l.totalSeconds with
  | some v => .ok v
  | none => .error .attributeError

/-- `float(self.element("DistanceMeters").text)` on a lap. -/
def lapDistance (l : LapNode) : Except PyError ℚ :=
  match l.distanceMeters with
  | some v => .ok v
  | none => .error .attributeError

/-- `int(self.element("Calories").text)` on a lap. -/
def lapCalories (l : LapNode) : Except PyError Int :=
  match l.calories with
  | some v => .ok v
  | none => .error .attributeError

/-- `TCX.sort_children_by(track, key=time)`: Python `sorted` is a stable
sort by the key; `List.mergeSort` is the stable sort of the library. -/
def sortTrackpointsByTime (tps : List TrackpointNode) : List TrackpointNode :=
  tps.mergeSort (fun a b => a.time ≤ b.time)

/-- The distance-reconciliation loop of `Lap.merge`:
`for trackpoint in later.trackpoints: trackpoint.distance += base`. -/
def adjustLapTrackpointDistances (l : LapNode) (base : ℚ) : LapNode :=
  { l with tracks := l.tracks.map fun t =>
      { t with trackpoints := t.trackpoints.map fun tp =>
          { tp with distance := tp.distance + base } } }

/-- `Lap.MergeKind` (values 2 and 3 of the `IntEnum`). -/
inductive LapMergeKind where
  | mergeIntoSingleLap
  | mergeIntoSingleTrack
  deriving DecidableEq, Repr

/-- `Workout.MergeKind` (values 1, 2, 3). -/
inductive WorkoutMergeKind where
  | appendLaps
  | mergeIntoSingleLap
  | mergeIntoSingleTrack
  deriving DecidableEq, Repr

/-- Lines 591-594 of `Lap.merge`, run on the post-splice state:
`self.start_time = earlier.start_time` (attribute write, never fails),
then `self.total_seconds += lap.total_seconds`,
`self.distance += lap.distance`, `self.calories += lap.calories` — each
`+=` first reads the receiver's element, then the argument lap's element;
a missing element on either side is an `AttributeError`. -/
def lapMergeAggregates (selfLap otherLap : LapNode) (earlierStart : Time) :
    Except PyError (LapNode × LapNode) :=
  let s1 := { selfLap with startTime := earlierStart }
  match s1.totalSeconds, otherLap.totalSeconds with
  | some st, some ot =>
    let s2 := { s1 with totalSeconds := some (st + ot) }
    match s2.distanceMeters, otherLap.distanceMeters with
    | some sd, some od =>
      let s3 := { s2 with distanceMeters := some (sd + od) }
      match s3.calories, otherLap.calories with
      | some sc, some oc => .ok ({ s3 with calories := some (sc + oc) }, otherLap)
      | _, _ => .error .attributeError
    | _, _ => .error .attributeError
  | _, _ => .error .attributeError

/-- `Lap.merge(self, lap, merge_kind)`.  The source aliases
`(earlier, later)` to `(self, lap)` or `(lap, self)` depending on
`self.start_time < lap.start_time`; the embedding resolves the aliasing by
writing the two cases out.  lxml *moves* elements on `extend` and on
slice assignment, so

* `earlier._root.extend(later tracks)` removes the tracks from `later`;
* `self._root[:] = earlier._root[:]` with `self ≠ earlier` replaces *all*
  of self's children (scalar elements included) with earlier's children
  and leaves `earlier`'s root childless — the subsequent
  `lap.total_seconds` read then finds no element;
* with `self = earlier` the slice assignment is a self-assignment (no-op).

The result pair is `(self, lap)` after the merge. -/
def lapMerge (selfLap otherLap : LapNode) (kind : LapMergeKind) :
    Except PyError (LapNode × LapNode) :=
  match lapOverlaps selfLap otherLap with
  | .error e => .error e
  | .ok true => .error (.valueError "Laps should not overlap")
  | .ok false =>
    if selfLap.startTime < otherLap.startTime then
      -- earlier = self (receiver), later = lap (donor)
      match selfLap.distanceMeters with
      | none => .error .attributeError
      | some base =>
        let other1 := adjustLapTrackpointDistances otherLap base
        match kind with
        | .mergeIntoSingleLap =>
          -- earlier._root.extend(later's Track elements): moved into self
          let self1 := { selfLap with tracks := selfLap.tracks ++ other1.tracks }
          let other2 := { other1 with tracks := [] }
          -- self._root[:] = earlier._root[:] is a self-assignment here
          lapMergeAggregates self1 other2 selfLap.startTime
        | .mergeIntoSingleTrack =>
          -- earlier_track = earlier.element("Track"); None.extend → AttributeError
          match selfLap.tracks with
          | [] => .error .attributeError
          | t0 :: rest =>
            let laterTps := lapAllTrackpoints other1
            -- earlier_track.extend(later trackpoints): moved out of the donor
            let t1 := { t0 with trackpoints := t0.trackpoints ++ laterTps }
            let other2 := { other1 with
                tracks := other1.tracks.map fun t => { t with trackpoints := [] } }
            -- self_track is earlier_track here; slice assignment is a no-op;
            -- then sort_children_by time
            let t2 := { t1 with trackpoints := sortTrackpointsByTime t1.trackpoints }
            let self1 := { selfLap with tracks := t2 :: rest }
            lapMergeAggregates self1 other2 selfLap.startTime
    else
      -- earlier = lap (donor), later = self (receiver)
      match otherLap.distanceMeters with
      | none => .error .attributeError
      | some base =>
        let self1 := adjustLapTrackpointDistances selfLap base
        match kind with
        | .mergeIntoSingleLap =>
          -- earlier._root.extend(later's tracks): self's tracks move to the donor
          let other1 := { otherLap with tracks := otherLap.tracks ++ self1.tracks }
          let self2 := { self1 with tracks := [] }
          -- self._root[:] = earlier._root[:]: ALL of the donor's children
          -- (scalar elements and tracks) move into self; donor left childless
          let self3 := { self2 with
              totalSeconds := other1.totalSeconds,
              distanceMeters := other1.distanceMeters,
              calories := other1.calories,
              tracks := other1.tracks }
          let other2 := { other1 with
              totalSeconds := none, distanceMeters := none,
              calories := none, tracks := [] }
          lapMergeAggregates self3 other2 otherLap.startTime
        | .mergeIntoSingleTrack =>
          match otherLap.tracks with
          | [] => .error .attributeError
          | ot0 :: orest =>
            let laterTps := lapAllTrackpoints self1
            -- earlier_track.extend(later trackpoints)
            let ot1 := { ot0 with trackpoints := ot0.trackpoints ++ laterTps }
            let self2 := { self1 with
                tracks := self1.tracks.map
                  (fun (t : TrackNode) => { t with trackpoints := [] }) }
            -- self_track = self.element("Track")
            match h : self2.tracks with
            | [] => .error .attributeError
            | st0 :: srest =>
              -- self_track[:] = earlier_track[:] (moves the combined
              -- trackpoints into self's first track, emptying the donor's),
              -- then sort_children_by time
              let st1 := { st0 with trackpoints := sortTrackpointsByTime ot1.trackpoints }
              let other2 := { otherLap with
                  tracks := { ot1 with trackpoints := [] } :: orest }
              let self3 := { self2 with tracks := st1 :: srest }
              lapMergeAggregates self3 other2 otherLap.startTime

/-- The `ValueError` message of the lap-count check in `Workout.merge`
(`str.format` with both workout ids and both lap counts). -/
def lapCountMsg (selfId otherId : String) (selfCount otherCount : Nat) : String :=
  "In order to merge laps, each workout should have exactly one lap. [" ++ selfId ++
    "] workout has " ++ toString selfCount ++ " laps, [" ++ otherId ++
    "] workout has " ++ toString otherCount ++ " laps."

/-- The single-lap-policy tail of `Workout.merge`: the exactly-one-lap
check, then `self_laps[0].merge(workout_laps[0], Lap.MergeKind(merge_kind))`. -/
def workoutLapMergeStep (selfW otherW : WorkoutNode) (lk : LapMergeKind) :
    Except PyError (WorkoutNode × WorkoutNode) :=
  match selfW.laps, otherW.laps with
  | [sl], [ol] =>
    match lapMerge sl ol lk with
    | .error e => .error e
    | .ok (sl', ol') =>
      .ok ({ selfW with laps := [sl'] }, { otherW with laps := [ol'] })
  | sls, ols =>
    .error (.valueError (lapCountMsg selfW.workoutId otherW.workoutId
      sls.length ols.length))

/-- `Workout.merge(self, workout, merge_kind)`: overlap precondition first
(raising before any mutation), then either the lap-append splice (lxml
moves the donor's laps into the receiver's `Activity` element) or the
single-lap policies via `Lap.merge`. -/
def workoutMerge (selfW otherW : WorkoutNode) (kind : WorkoutMergeKind) :
    Except PyError (WorkoutNode × WorkoutNode) :=
  match workoutOverlaps selfW otherW with
  | .error e => .error e
  | .ok true => .error (.valueError "Workouts should not overlap")
  | .ok false =>
    match kind with
    | .appendLaps =>
      .ok ({ selfW with laps := selfW.laps ++ otherW.laps },
           { otherW with laps := [] })
    | .mergeIntoSingleLap => workoutLapMergeStep selfW otherW .mergeIntoSingleLap
    | .mergeIntoSingleTrack => workoutLapMergeStep selfW otherW .mergeIntoSingleTrack

/-- The trackpoint body of `Workout.scale`: the three `if` blocks in
source order.  `trackpoint.cadence * scale_factor` with an absent
`Cadence` element multiplies `None` by a float — a `TypeError`; likewise
for `Watts`. -/
def scaleTrackpoint (f : ℚ) (sd sc sw : Bool) (tp : TrackpointNode) :
    Except PyError TrackpointNode :=
  let tp1 := if sd then { tp with distance := tp.distance * f } else tp
  let step2 : Except PyError TrackpointNode :=
    if sc then
      match tp1.cadence with
      | none => .error .typeError
      | some c => .ok { tp1 with cadence := some (c * f) }
    else .ok tp1
  match step2 with
  | .error e => .error e
  | .ok tp2 =>
    if sw then
      match tp2.watts with
      | none => .error .typeError
      | some wv => .ok { tp2 with watts := some (wv * f) }
    else .ok tp2

/-- Scaling lifted to one track (trackpoints in document order). -/
def scaleTrack (f : ℚ) (sd sc sw : Bool) (t : TrackNode) :
    Except PyError TrackNode :=
  match t.trackpoints.mapM (scaleTrackpoint f sd sc sw) with
  | .error e => .error e
  | .ok tps => .ok { t with trackpoints := tps }

/-- Scaling lifted to one lap (tracks in document order). -/
def scaleLap (f : ℚ) (sd sc sw : Bool) (l : LapNode) : Except PyError LapNode :=
  match l.tracks.mapM (scaleTrack f sd sc sw) with
  | .error e => .error e
  | .ok ts => .ok { l with tracks := ts }

/-- `Workout.scale`: iterate every trackpoint of every lap (in document
order) applying the three scalings.  The embedding returns the first
error; the in-place partial mutation that precedes a Python exception is
not observable through the claims under study. -/
def workoutScale (w : WorkoutNode) (f : ℚ) (sd sc sw : Bool) :
    Except PyError WorkoutNode :=
  match w.laps.mapM (scaleLap f sd sc sw) with
  | .error e => .error e
  | .ok ls => .ok { w with laps := ls }

/-! ### Time codec: `TCX.__TimeFormats`, `parse_time`, `to_tcx_time_string`

`parse_time` tries `"%Y-%m-%dT%H:%M:%S.%fZ"` (canonical, fractional
seconds) and then `"%Y-%m-%dT%H:%M:%SZ"` (whole seconds), returning the
first `datetime.strptime` success; `to_tcx_time_string` always renders
with the canonical layout.  The embedding models `strptime` at the level
of CPython's `_strptime` regexes (per-directive digit patterns, tried in
the written alternation order, followed by the `datetime` constructor's
range validation) and `strftime` as the zero-padded rendering of each
directive (`%Y` as the conventional four-digit zero-padded year). -/

/-- A `datetime` value as produced by `datetime.strptime`: calendar fields
plus microseconds. -/
structure PyDateTime where
  year : ℕ
  month : ℕ
  day : ℕ
  hour : ℕ
  minute : ℕ
  second : ℕ
  usec : ℕ
  deriving DecidableEq, Repr

/-- Gregorian leap-year rule used by `datetime`. -/
def isLeapYear (y : ℕ) : Bool :=
  y % 4 = 0 && (y % 100 != 0 || y % 400 = 0)

/-- Month lengths enforced by the `datetime` constructor. -/
def daysInMonth (y mo : ℕ) : ℕ :=
  if mo = 2 then (if isLeapYear y then 29 else 28)
  else if mo = 4 ∨ mo = 6 ∨ mo = 9 ∨ mo = 11 then 30
  else 31

/-- The timestamps representable in the canonical fractional-seconds
layout: exactly the values the `datetime` constructor accepts, with the
year in four digits. -/
def ValidDT (t : PyDateTime) : Prop :=
  1 ≤ t.year ∧ t.year ≤ 9999 ∧ 1 ≤ t.month ∧ t.month ≤ 12 ∧
    1 ≤ t.day ∧ t.day ≤ daysInMonth t.year t.month ∧
    t.hour ≤ 23 ∧ t.minute ≤ 59 ∧ t.second ≤ 59 ∧ t.usec ≤ 999999

instance (t : PyDateTime) : Decidable (ValidDT t) := by
  unfold ValidDT
  infer_instance

/-- Two-digit zero-padded rendering (`%m`, `%d`, `%H`, `%M`, `%S`). -/
def pad2 (n : ℕ) : List Char :=
  [Nat.digitChar (n / 10), Nat.digitChar (n % 10)]

/-- Four-digit zero-padded year rendering (`%Y`). -/
def pad4 (n : ℕ) : List Char :=
  [Nat.digitChar (n / 1000), Nat.digitChar (n / 100 % 10),
   Nat.digitChar (n / 10 % 10), Nat.digitChar (n % 10)]

/-- Six-digit microsecond rendering (`%f`). -/
def pad6 (n : ℕ) : List Char :=
  [Nat.digitChar (n / 100000), Nat.digitChar (n / 10000 % 10),
   Nat.digitChar (n / 1000 % 10), Nat.digitChar (n / 100 % 10),
   Nat.digitChar (n / 10 % 10), Nat.digitChar (n % 10)]

/-- `strftime("%Y")` on the target platform (CPython/glibc): the year in
decimal *without* zero padding — one to three digits for years below
1000, the four digits for years 1000-9999 (the program's domain; years
are at most 9999 per `ValidDT`). -/
def fmtYear (y : ℕ) : List Char :=
  if y < 10 then [Nat.digitChar y]
  else if y < 100 then [Nat.digitChar (y / 10), Nat.digitChar (y % 10)]
  else if y < 1000 then
    [Nat.digitChar (y / 100), Nat.digitChar (y / 10 % 10), Nat.digitChar (y % 10)]
  else pad4 y

/-- `strftime("%Y-%m-%dT%H:%M:%S.%fZ")`, the canonical layout
(`__TimeFormats[0]`). -/
def fmtCanonical (t : PyDateTime) : List Char :=
  fmtYear t.year ++ '-' :: (pad2 t.month ++ '-' :: (pad2 t.day ++
    'T' :: (pad2 t.hour ++ ':' :: (pad2 t.minute ++ ':' :: (pad2 t.second ++
      '.' :: (pad6 t.usec ++ ['Z']))))))

/-- `TCX.to_tcx_time_string`: always the canonical layout, whatever layout
the value was parsed from. -/
def to_tcx_time_string (t : PyDateTime) : String :=
  ⟨fmtCanonical t⟩

/-- The whole-seconds layout `"%Y-%m-%dT%H:%M:%SZ"` (`__TimeFormats[1]`),
rendered for a timestamp; the program only parses this layout. -/
def fmtWholeSeconds (t : PyDateTime) : List Char :=
  fmtYear t.year ++ '-' :: (pad2 t.month ++ '-' :: (pad2 t.day ++
    'T' :: (pad2 t.hour ++ ':' :: (pad2 t.minute ++ ':' :: (pad2 t.second ++
      ['Z'])))))

/-- Numeric value of a digit character. -/
def dval (c : Char) : ℕ := c.toNat - 48

/-- `%m` two-digit alternatives `1[0-2]|0[1-9]` of CPython's `_strptime`. -/
def moTwo (a b : Char) : Option ℕ :=
  if a = '1' ∧ '0' ≤ b ∧ b ≤ '2' then some (10 + dval b)
  else if a = '0' ∧ '1' ≤ b ∧ b ≤ '9' then some (dval b)
  else none

/-- `%d` two-or-two-char alternatives `3[01]|[12]\d|0[1-9]| [1-9]` (the
last accepts a space-padded day; it can only fire when the single-digit
`[1-9]` alternative below has already failed on the space, so listing it
here preserves the regex's overall behavior). -/
def dayTwo (a b : Char) : Option ℕ :=
  if a = '3' ∧ (b = '0' ∨ b = '1') then some (30 + dval b)
  else if (a = '1' ∨ a = '2') ∧ b.isDigit then some (10 * dval a + dval b)
  else if a = '0' ∧ '1' ≤ b ∧ b ≤ '9' then some (dval b)
  else if a = ' ' ∧ '1' ≤ b ∧ b ≤ '9' then some (dval b)
  else none

/-- `%H` two-digit alternatives `2[0-3]|[0-1]\d`. -/
def hourTwo (a b : Char) : Option ℕ :=
  if a = '2' ∧ '0' ≤ b ∧ b ≤ '3' then some (20 + dval b)
  else if (a = '0' ∨ a = '1') ∧ b.isDigit then some (10 * dval a + dval b)
  else none

/-- `%M` two-digit alternative `[0-5]\d`. -/
def minTwo (a b : Char) : Option ℕ :=
  if ('0' ≤ a ∧ a ≤ '5') ∧ b.isDigit then some (10 * dval a + dval b)
  else none

/-- `%S` two-digit alternatives `6[0-1]|[0-5]\d` (leap seconds are matched
by the regex; the `datetime` constructor rejects them later). -/
def secTwo (a b : Char) : Option ℕ :=
  if a = '6' ∧ (b = '0' ∨ b = '1') then some (60 + dval b)
  else if ('0' ≤ a ∧ a ≤ '5') ∧ b.isDigit then some (10 * dval a + dval b)
  else none

/-- Single-digit fallback `[1-9]` (months and days). -/
def oneNonZero (a : Char) : Option ℕ :=
  if '1' ≤ a ∧ a ≤ '9' then some (dval a) else none

/-- Single-digit fallback `\d` (hours, minutes, seconds). -/
def oneDigit (a : Char) : Option ℕ :=
  if a.isDigit then some (dval a) else none

/-- A two-digits-preferred field of the `_strptime` regexes: the two-char
alternatives are written before the one-char alternative, and the regex
engine takes the first branch that matches. -/
def parseField2 (two : Char → Char → Option ℕ) (one : Char → Option ℕ) :
    List Char → Option (ℕ × List Char)
  | a :: b :: rest =>
    match two a b with
    | some v => some (v, rest)
    | none =>
      match one a with
      | some v => some (v, b :: rest)
      | none => none
  | [a] =>
    match one a with
    | some v => some (v, [])
    | none => none
  | [] => none

/-- `%Y`: exactly four digits (`\d\d\d\d`). -/
def parseYear4 : List Char → Option (ℕ × List Char)
  | a :: b :: c :: d :: rest =>
    if a.isDigit ∧ b.isDigit ∧ c.isDigit ∧ d.isDigit then
      some (1000 * dval a + 100 * dval b + 10 * dval c + dval d, rest)
    else none
  | _ => none

/-- Greedily take up to `n` leading digit characters. -/
def takeDigits : ℕ → List Char → (List Char × List Char)
  | 0, cs => ([], cs)
  | n + 1, c :: cs =>
    if c.isDigit then
      let (ds, r) := takeDigits n cs
      (c :: ds, r)
    else ([], c :: cs)
  | _ + 1, [] => ([], [])

/-- Decimal value of a digit string. -/
def digitsVal (ds : List Char) : ℕ :=
  ds.foldl (fun acc c => 10 * acc + dval c) 0

/-- `%f`: one to six digits, right-padded with zeros to microseconds
(`_strptime` appends `"0" * (6 - len(found))`). -/
def parseFrac (cs : List Char) : Option (ℕ × List Char) :=
  match takeDigits 6 cs with
  | ([], _) => none
  | (ds, r) => some (digitsVal ds * 10 ^ (6 - ds.length), r)

/-- Consume one expected literal character. -/
def expectChar (c : Char) : List Char → Option (List Char)
  | x :: r => if x = c then some r else none
  | [] => none

/-- The `datetime(y, mo, d, h, mi, s, us)` constructor validation run by
`strptime` after the regex match: `MINYEAR = 1`, day within the month,
seconds below 60 (leap seconds rejected). -/
def dtValid (y mo d h mi s : ℕ) : Bool :=
  1 ≤ y && 1 ≤ d && d ≤ daysInMonth y mo && s ≤ 59 && h ≤ 23 && mi ≤ 59 && mo ≤ 12

/-- `strptime(text, "%Y-%m-%dT%H:%M:%S.%fZ")`: the directive regexes in
sequence, the whole string consumed, then constructor validation. -/
def parseCanonicalChars (cs : List Char) : Option PyDateTime := do
  let (y, r1) ← parseYear4 cs
  let r2 ← expectChar '-' r1
  let (mo, r3) ← parseField2 moTwo oneNonZero r2
  let r4 ← expectChar '-' r3
  let (d, r5) ← parseField2 dayTwo oneNonZero r4
  let r6 ← expectChar 'T' r5
  let (h, r7) ← parseField2 hourTwo oneDigit r6
  let r8 ← expectChar ':' r7
  let (mi, r9) ← parseField2 minTwo oneDigit r8
  let r10 ← expectChar ':' r9
  let (s, r11) ← parseField2 secTwo oneDigit r10
  let r12 ← expectChar '.' r11
  let (us, r13) ← parseFrac r12
  let r14 ← expectChar 'Z' r13
  if r14 = [] ∧ dtValid y mo d h mi s then
    some ⟨y, mo, d, h, mi, s, us⟩
  else none

/-- `strptime(text, "%Y-%m-%dT%H:%M:%SZ")`: same prefix, no fraction; the
unset `%f` defaults to `fraction = 0`. -/
def parseWholeChars (cs : List Char) : Option PyDateTime := do
  let (y, r1) ← parseYear4 cs
  let r2 ← expectChar '-' r1
  let (mo, r3) ← parseField2 moTwo oneNonZero r2
  let r4 ← expectChar '-' r3
  let (d, r5) ← parseField2 dayTwo oneNonZero r4
  let r6 ← expectChar 'T' r5
  let (h, r7) ← parseField2 hourTwo oneDigit r6
  let r8 ← expectChar ':' r7
  let (mi, r9) ← parseField2 minTwo oneDigit r8
  let r10 ← expectChar ':' r9
  let (s, r11) ← parseField2 secTwo oneDigit r10
  let r12 ← expectChar 'Z' r11
  if r12 = [] ∧ dtValid y mo d h mi s then
    some ⟨y, mo, d, h, mi, s, 0⟩
  else none

/-- `TCX.parse_time`: try the canonical layout, then the whole-seconds
layout, else `ValueError` with the source's message. -/
def parse_time (s : String) : Except PyError PyDateTime :=
  match parseCanonicalChars s.data with
  | some t => .ok t
  | none =>
    match parseWholeChars s.data with
    | some t => .ok t
    | none => .error (.valueError ("Unable to parse time string: [" ++ s ++ "]"))

/-- Earlier lap for the C1 evaluation: `[0,10]`, totals 600 s / 5000 m /
100 kcal, one track with two trackpoints. -/
def c1LapA : LapNode :=
  ⟨0, some 600, some 5000, some 100,
   [⟨[⟨0, 1000, none, none⟩, ⟨10, 5000, none, none⟩]⟩]⟩

/-- Later lap for the C1 evaluation: `[20,30]`, totals 300 s / 4000 m /
50 kcal, one track with two trackpoints. -/
def c1LapB : LapNode :=
  ⟨20, some 300, some 4000, some 50,
   [⟨[⟨20, 500, none, none⟩, ⟨30, 4000, none, none⟩]⟩]⟩

/-- Workout used for the C9 evaluation: one lap, one track, a single
trackpoint that has a distance and a `Watts` element but *no* `Cadence`
element (a legal TCX document — cadence is optional). -/
def c9WorkoutNoCadence : WorkoutNode :=
  ⟨"w1", "Biking", [⟨0, some 600, some 5000, some 100,
    [⟨[⟨0, 100, none, some 200⟩]⟩]⟩]⟩

/-- The same workout with the cadence element present. -/
def c9WorkoutFull : WorkoutNode :=
  ⟨"w1", "Biking", [⟨0, some 600, some 5000, some 100,
    [⟨[⟨0, 100, some 80, some 200⟩]⟩]⟩]⟩

/-! ### Helper lemmas about the merge engine -/

/-- The aggregate-update tail never touches the track structure, returns
the argument lap unchanged, and stamps the selected start time. -/
theorem lapMergeAggregates_ok_shape (selfLap otherLap : LapNode) (es : Time)
    (s' o' : LapNode)
    (h : lapMergeAggregates selfLap otherLap es = .ok (s', o')) :
    s'.tracks = selfLap.tracks ∧ o' = otherLap ∧ s'.startTime = es := by
  unfold lapMergeAggregates at h
  dsimp only at h
  split at h
  case _ => split at h
            case _ => split at h
                      case _ => simp only [Except.ok.injEq, Prod.mk.injEq] at h
                                rcases h with ⟨hs, ho⟩
                                subst hs
                                subst ho
                                exact ⟨rfl, rfl, rfl⟩
                      case _ => simp_all
            case _ => simp_all
  case _ => simp_all

/-- Overlapping laps make `Lap.merge` raise the fixed-message `ValueError`
before any mutation, whatever the merge kind. -/
theorem lapMerge_overlap_error (a b : LapNode) (k : LapMergeKind) (fa fb : Time)
    (ha : lapFinishTime a = .ok fa) (hb : lapFinishTime b = .ok fb)
    (hov : max a.startTime b.startTime ≤ min fa fb) :
    lapMerge a b k = .error (.valueError "Laps should not overlap") := by
  unfold lapMerge lapOverlaps
  rw [ha, hb]
  simp [overlapsIntervals, hov]

/-- Overlapping workouts make `Workout.merge` raise the fixed-message
`ValueError` before any mutation, whatever the merge kind. -/
theorem workoutMerge_overlap_error (a b : WorkoutNode) (k : WorkoutMergeKind)
    (sa sb fa fb : Time)
    (hsa : workoutStartTime a = .ok sa) (hsb : workoutStartTime b = .ok sb)
    (hfa : workoutFinishTime a = .ok fa) (hfb : workoutFinishTime b = .ok fb)
    (hov : max sa sb ≤ min fa fb) :
    workoutMerge a b k = .error (.valueError "Workouts should not overlap") := by
  unfold workoutMerge workoutOverlaps
  rw [hsa, hsb, hfa, hfb]
  simp [overlapsIntervals, hov]

/-- The sort of `sort_children_by(track, time)` leaves adjacent trackpoint
times non-decreasing. -/
theorem sortTrackpointsByTime_chain (tps : List TrackpointNode) :
    List.Chain' (fun a b => a.time ≤ b.time) (sortTrackpointsByTime tps) := by
  have hp := @List.sorted_mergeSort TrackpointNode
    (fun a b : TrackpointNode => decide (a.time ≤ b.time))
    (fun a b c h1 h2 => by
      simp only [decide_eq_true_eq] at h1 h2 ⊢
      exact h1.trans h2)
    (fun a b => by
      simp only [Bool.or_eq_true, decide_eq_true_eq]
      exact Int.le_total a.time b.time)
    tps
  have hp2 : List.Pairwise (fun a b : TrackpointNode => a.time ≤ b.time)
      (sortTrackpointsByTime tps) := by
    refine (List.Pairwise.imp ?_ hp)
    intro a b h
    simpa using h
  exact hp2.chain'

/-- Digit characters rendered by `Nat.digitChar` are digits. -/
theorem digitChar_isDigit : ∀ d, d < 10 → (Nat.digitChar d).isDigit = true := by
  decide

/-- Decoding inverts `Nat.digitChar` on single digits. -/
theorem dval_digitChar : ∀ d, d < 10 → dval (Nat.digitChar d) = d := by
  decide

/-- The `%m` two-digit alternatives accept every zero-padded month. -/
theorem moTwo_pad : ∀ mo, mo < 13 → 1 ≤ mo →
    moTwo (Nat.digitChar (mo / 10)) (Nat.digitChar (mo % 10)) = some mo := by
  decide

/-- The `%d` two-digit alternatives accept every zero-padded day. -/
theorem dayTwo_pad : ∀ d, d < 32 → 1 ≤ d →
    dayTwo (Nat.digitChar (d / 10)) (Nat.digitChar (d % 10)) = some d := by
  decide

/-- The `%H` two-digit alternatives accept every zero-padded hour. -/
theorem hourTwo_pad : ∀ h, h < 24 →
    hourTwo (Nat.digitChar (h / 10)) (Nat.digitChar (h % 10)) = some h := by
  decide

/-- The `%M` two-digit alternative accepts every zero-padded minute. -/
theorem minTwo_pad : ∀ m, m < 60 →
    minTwo (Nat.digitChar (m / 10)) (Nat.digitChar (m % 10)) = some m := by
  decide

/-- The `%S` two-digit alternatives accept every zero-padded second. -/
theorem secTwo_pad : ∀ s, s < 60 →
    secTwo (Nat.digitChar (s / 10)) (Nat.digitChar (s % 10)) = some s := by
  decide

/-- A two-digit-preferred field consumes exactly the zero-padded digits. -/
theorem parseField2_pad2 (two : Char → Char → Option ℕ) (one : Char → Option ℕ)
    (n : ℕ) (h : two (Nat.digitChar (n / 10)) (Nat.digitChar (n % 10)) = some n) :
    ∀ rest, parseField2 two one (pad2 n ++ rest) = some (n, rest) := by
  intro rest
  simp [pad2, parseField2, h]

/-- `%Y` consumes exactly the four padded year digits. -/
theorem parseYear4_pad4 (y : ℕ) (hy : y ≤ 9999) :
    ∀ rest, parseYear4 (pad4 y ++ rest) = some (y, rest) := by
  intro rest
  have e1 : y / 1000 < 10 := by omega
  have e2 : y / 100 % 10 < 10 := Nat.mod_lt _ (by norm_num)
  have e3 : y / 10 % 10 < 10 := Nat.mod_lt _ (by norm_num)
  have e4 : y % 10 < 10 := Nat.mod_lt _ (by norm_num)
  simp [pad4, parseYear4, digitChar_isDigit _ e1, digitChar_isDigit _ e2,
    digitChar_isDigit _ e3, digitChar_isDigit _ e4, dval_digitChar _ e1,
    dval_digitChar _ e2, dval_digitChar _ e3, dval_digitChar _ e4]
  omega

/-- `%f` consumes exactly the six padded microsecond digits. -/
theorem parseFrac_pad6 (us : ℕ) (hus : us ≤ 999999) :
    ∀ rest, parseFrac (pad6 us ++ rest) = some (us, rest) := by
  intro rest
  have e1 : us / 100000 < 10 := by omega
  have e2 : us / 10000 % 10 < 10 := Nat.mod_lt _ (by norm_num)
  have e3 : us / 1000 % 10 < 10 := Nat.mod_lt _ (by norm_num)
  have e4 : us / 100 % 10 < 10 := Nat.mod_lt _ (by norm_num)
  have e5 : us / 10 % 10 < 10 := Nat.mod_lt _ (by norm_num)
  have e6 : us % 10 < 10 := Nat.mod_lt _ (by norm_num)
  simp [pad6, parseFrac, takeDigits, digitsVal,
    digitChar_isDigit _ e1, digitChar_isDigit _ e2, digitChar_isDigit _ e3,
    digitChar_isDigit _ e4, digitChar_isDigit _ e5, digitChar_isDigit _ e6,
    dval_digitChar _ e1, dval_digitChar _ e2, dval_digitChar _ e3,
    dval_digitChar _ e4, dval_digitChar _ e5, dval_digitChar _ e6]
  omega

/-- Every month length is at most 31 days. -/
theorem daysInMonth_le (y mo : ℕ) : daysInMonth y mo ≤ 31 := by
  unfold daysInMonth
  split
  · split <;> omega
  · split <;> omega

/-- Matching the expected literal consumes it. -/
theorem expectChar_cons (c : Char) (r : List Char) :
    expectChar c (c :: r) = some r := by
  simp [expectChar]

/-- For four-digit years the platform's `%Y` rendering coincides with the
zero-padded four digits that `%Y` parsing requires. -/
theorem fmtYear_eq_pad4 (y : ℕ) (hy : 1000 ≤ y) : fmtYear y = pad4 y := by
  unfold fmtYear
  rw [if_neg (by omega), if_neg (by omega), if_neg (by omega)]

set_option maxHeartbeats 1000000 in
/-- Round trip through the canonical layout: parsing the canonical
rendering of any representable timestamp under the canonical format
recovers the timestamp exactly. -/
theorem parseCanonical_fmt (t : PyDateTime) (hy : 1000 ≤ t.year) (h : ValidDT t) :
    parseCanonicalChars (fmtCanonical t) = some t := by
  obtain ⟨h1, h2, h3, h4, h5, h6, h7, h8, h9, h10⟩ := h
  have hdt : dtValid t.year t.month t.day t.hour t.minute t.second = true := by
    simp only [dtValid, Bool.and_eq_true, decide_eq_true_eq]
    refine ⟨⟨⟨⟨⟨⟨h1, ?_⟩, h6⟩, h9⟩, h7⟩, h8⟩, h4⟩
    omega
  unfold fmtCanonical parseCanonicalChars
  rw [fmtYear_eq_pad4 t.year hy]
  simp only [Option.bind_eq_bind]
  rw [parseYear4_pad4 t.year h2]
  simp only [Option.some_bind]
  rw [expectChar_cons]
  simp only [Option.some_bind]
  rw [parseField2_pad2 moTwo oneNonZero t.month (moTwo_pad t.month (by omega) h3)]
  simp only [Option.some_bind]
  rw [expectChar_cons]
  simp only [Option.some_bind]
  rw [parseField2_pad2 dayTwo oneNonZero t.day
    (dayTwo_pad t.day (by have := daysInMonth_le t.year t.month; omega) h5)]
  simp only [Option.some_bind]
  rw [expectChar_cons]
  simp only [Option.some_bind]
  rw [parseField2_pad2 hourTwo oneDigit t.hour (hourTwo_pad t.hour (by omega))]
  simp only [Option.some_bind]
  rw [expectChar_cons]
  simp only [Option.some_bind]
  rw [parseField2_pad2 minTwo oneDigit t.minute (minTwo_pad t.minute (by omega))]
  simp only [Option.some_bind]
  rw [expectChar_cons]
  simp only [Option.some_bind]
  rw [parseField2_pad2 secTwo oneDigit t.second (secTwo_pad t.second (by omega))]
  simp only [Option.some_bind]
  rw [expectChar_cons]
  simp only [Option.some_bind]
  rw [parseFrac_pad6 t.usec h10]
  simp only [Option.some_bind]
  rw [expectChar_cons]
  simp only [Option.some_bind]
  rw [if_pos (show True ∧
    dtValid t.year t.month t.day t.hour t.minute t.second = true from ⟨trivial, hdt⟩)]

set_option maxHeartbeats 1000000 in
/-- Parsing the whole-seconds rendering of a whole-second timestamp under
the whole-seconds format recovers it (`%f` defaults to zero). -/
theorem parseWhole_fmt (t : PyDateTime) (hy : 1000 ≤ t.year) (h : ValidDT t) (h0 : t.usec = 0) :
    parseWholeChars (fmtWholeSeconds t) = some t := by
  obtain ⟨h1, h2, h3, h4, h5, h6, h7, h8, h9, h10⟩ := h
  have hdt : dtValid t.year t.month t.day t.hour t.minute t.second = true := by
    simp only [dtValid, Bool.and_eq_true, decide_eq_true_eq]
    refine ⟨⟨⟨⟨⟨⟨h1, ?_⟩, h6⟩, h9⟩, h7⟩, h8⟩, h4⟩
    omega
  unfold fmtWholeSeconds parseWholeChars
  rw [fmtYear_eq_pad4 t.year hy]
  simp only [Option.bind_eq_bind]
  rw [parseYear4_pad4 t.year h2]
  simp only [Option.some_bind]
  rw [expectChar_cons]
  simp only [Option.some_bind]
  rw [parseField2_pad2 moTwo oneNonZero t.month (moTwo_pad t.month (by omega) h3)]
  simp only [Option.some_bind]
  rw [expectChar_cons]
  simp only [Option.some_bind]
  rw [parseField2_pad2 dayTwo oneNonZero t.day
    (dayTwo_pad t.day (by have := daysInMonth_le t.year t.month; omega) h5)]
  simp only [Option.some_bind]
  rw [expectChar_cons]
  simp only [Option.some_bind]
  rw [parseField2_pad2 hourTwo oneDigit t.hour (hourTwo_pad t.hour (by omega))]
  simp only [Option.some_bind]
  rw [expectChar_cons]
  simp only [Option.some_bind]
  rw [parseField2_pad2 minTwo oneDigit t.minute (minTwo_pad t.minute (by omega))]
  simp only [Option.some_bind]
  rw [expectChar_cons]
  simp only [Option.some_bind]
  rw [parseField2_pad2 secTwo oneDigit t.second (secTwo_pad t.second (by omega))]
  simp only [Option.some_bind]
  rw [expectChar_cons]
  simp only [Option.some_bind]
  rw [if_pos (show True ∧
    dtValid t.year t.month t.day t.hour t.minute t.second = true from ⟨trivial, hdt⟩)]
  rw [← h0]

set_option maxHeartbeats 1000000 in
/-- A whole-seconds rendering does not match the canonical layout (the
parser reaches the `.` of `%S.%f` and finds `Z`), so `parse_time` falls
through to the second format. -/
theorem parseCanonical_whole_none (t : PyDateTime) (hy : 1000 ≤ t.year) (h : ValidDT t) :
    parseCanonicalChars (fmtWholeSeconds t) = none := by
  obtain ⟨h1, h2, h3, h4, h5, h6, h7, h8, h9, h10⟩ := h
  unfold fmtWholeSeconds parseCanonicalChars
  rw [fmtYear_eq_pad4 t.year hy]
  simp only [Option.bind_eq_bind]
  rw [parseYear4_pad4 t.year h2]
  simp only [Option.some_bind]
  rw [expectChar_cons]
  simp only [Option.some_bind]
  rw [parseField2_pad2 moTwo oneNonZero t.month (moTwo_pad t.month (by omega) h3)]
  simp only [Option.some_bind]
  rw [expectChar_cons]
  simp only [Option.some_bind]
  rw [parseField2_pad2 dayTwo oneNonZero t.day
    (dayTwo_pad t.day (by have := daysInMonth_le t.year t.month; omega) h5)]
  simp only [Option.some_bind]
  rw [expectChar_cons]
  simp only [Option.some_bind]
  rw [parseField2_pad2 hourTwo oneDigit t.hour (hourTwo_pad t.hour (by omega))]
  simp only [Option.some_bind]
  rw [expectChar_cons]
  simp only [Option.some_bind]
  rw [parseField2_pad2 minTwo oneDigit t.minute (minTwo_pad t.minute (by omega))]
  simp only [Option.some_bind]
  rw [expectChar_cons]
  simp only [Option.some_bind]
  rw [parseField2_pad2 secTwo oneDigit t.second (secTwo_pad t.second (by omega))]
  simp only [Option.some_bind]
  simp [expectChar]

/-- C5: `overlaps` returns true exactly when
`max(a_start, b_start) <= min(a_finish, b_finish)`; two intervals touching
at a single instant therefore count as overlapping; and `Lap.overlaps` /
`Workout.overlaps` are exactly this predicate applied to the derived
`[start, finish]` intervals. -/
theorem c5_overlap_closed_interval :
    (∀ aS aF bS bF : Time,
        overlapsIntervals aS aF bS bF = true ↔ max aS bS ≤ min aF bF) ∧
    (∀ s m f : Time, s ≤ m → m ≤ f → overlapsIntervals s m m f = true) ∧
    (∀ (a b : LapNode) (fa fb : Time),
        lapFinishTime a = .ok fa → lapFinishTime b = .ok fb →
        lapOverlaps a b = .ok (overlapsIntervals a.startTime fa b.startTime fb)) ∧
    (∀ (a b : WorkoutNode) (sa sb fa fb : Time),
        workoutStartTime a = .ok sa → workoutStartTime b = .ok sb →
        workoutFinishTime a = .ok fa → workoutFinishTime b = .ok fb →
        workoutOverlaps a b = .ok (overlapsIntervals sa fa sb fb)) := by
  refine ⟨?_, ?_, ?_, ?_⟩
  · intro aS aF bS bF
    simp [overlapsIntervals]
  · intro s m f hsm hmf
    have hmm : max s m ≤ min m f := by
      rw [max_le_iff, le_min_iff, le_min_iff]
      exact ⟨⟨hsm, hsm.trans hmf⟩, ⟨le_refl m, hmf⟩⟩
    simp [overlapsIntervals, hmm]
  · intro a b fa fb ha hb
    unfold lapOverlaps
    rw [ha, hb]
  · intro a b sa sb fa fb hsa hsb hfa hfb
    unfold workoutOverlaps
    rw [hsa, hsb, hfa, hfb]

/-- Witness for C5 at concrete intervals `[0,5]`, `[3,9]` (overlap), the
touching pair `[0,5]`, `[5,9]`, and concrete one-trackpoint laps/workouts. -/
theorem c5_witness :
    (overlapsIntervals 0 5 3 9 = true ↔ max (0 : Time) 3 ≤ min 5 9) ∧
    ((0 : Time) ≤ 5 ∧ (5 : Time) ≤ 9 ∧ overlapsIntervals 0 5 5 9 = true) ∧
    lapOverlaps ⟨0, some 1, some 1, some 1, [⟨[⟨5, 0, none, none⟩]⟩]⟩
        ⟨3, some 1, some 1, some 1, [⟨[⟨9, 0, none, none⟩]⟩]⟩ =
      .ok (overlapsIntervals 0 5 3 9) ∧
    workoutOverlaps ⟨"a", "Run", [⟨0, some 1, some 1, some 1, [⟨[⟨5, 0, none, none⟩]⟩]⟩]⟩
        ⟨"b", "Run", [⟨3, some 1, some 1, some 1, [⟨[⟨9, 0, none, none⟩]⟩]⟩]⟩ =
      .ok (overlapsIntervals 0 5 3 9) :=
  ⟨c5_overlap_closed_interval.1 0 5 3 9,
   ⟨by decide, by decide, c5_overlap_closed_interval.2.1 0 5 9 (by decide) (by decide)⟩,
   c5_overlap_closed_interval.2.2.1 _ _ 5 9 (by rfl) (by rfl),
   c5_overlap_closed_interval.2.2.2 _ _ 0 3 5 9 (by rfl) (by rfl) (by rfl) (by rfl)⟩

/-- C10: the derived time accessors require non-empty collections — a lap
with no trackpoints, a track with no trackpoints, and a workout with no
laps each make the corresponding `start_time` / `finish_time` raise
`IndexError` (the `[0]` of the sorted list), never a default value. -/
theorem c10_empty_accessors_fail :
    (∀ l : LapNode, lapAllTrackpoints l = [] →
        lapFinishTime l = .error .indexError) ∧
    (∀ t : TrackNode, t.trackpoints = [] →
        trackStartTime t = .error .indexError ∧
        trackFinishTime t = .error .indexError) ∧
    (∀ w : WorkoutNode, w.laps = [] →
        workoutStartTime w = .error .indexError ∧
        workoutFinishTime w = .error .indexError) := by
  refine ⟨?_, ?_, ?_⟩
  · intro l h
    unfold lapFinishTime
    rw [h]
  · intro t h
    constructor
    · unfold trackStartTime; rw [h]
    · unfold trackFinishTime; rw [h]
  · intro w h
    constructor
    · unfold workoutStartTime; rw [h]
    · unfold workoutFinishTime; rw [h]; rfl

/-- Witness for C10: a lap, a track and a workout with empty collections. -/
theorem c10_witness :
    lapFinishTime ⟨0, some 1, some 1, some 1, []⟩ = .error .indexError ∧
    trackStartTime ⟨[]⟩ = .error .indexError ∧
    trackFinishTime ⟨[]⟩ = .error .indexError ∧
    workoutStartTime ⟨"a", "Run", []⟩ = .error .indexError ∧
    workoutFinishTime ⟨"a", "Run", []⟩ = .error .indexError :=
  ⟨c10_empty_accessors_fail.1 ⟨0, some 1, some 1, some 1, []⟩ (by rfl),
   (c10_empty_accessors_fail.2.1 ⟨[]⟩ (by rfl)).1,
   (c10_empty_accessors_fail.2.1 ⟨[]⟩ (by rfl)).2,
   (c10_empty_accessors_fail.2.2 ⟨"a", "Run", []⟩ (by rfl)).1,
   (c10_empty_accessors_fail.2.2 ⟨"a", "Run", []⟩ (by rfl)).2⟩

/-- C2: whenever the two operands' closed `[start, finish]` intervals
intersect, every merge attempt — lap level or workout level, under any
merge kind — fails with the overlap `ValueError`.  In this embedding a
merge returns the updated operand pair only on success, and the source
raises this error before its first mutating statement, so an error result
is exactly the claimed no-op. -/
theorem c2_overlapping_merge_always_fails :
    (∀ (a b : LapNode) (k : LapMergeKind) (fa fb : Time),
        lapFinishTime a = .ok fa → lapFinishTime b = .ok fb →
        max a.startTime b.startTime ≤ min fa fb →
        lapMerge a b k = .error (.valueError "Laps should not overlap")) ∧
    (∀ (a b : WorkoutNode) (k : WorkoutMergeKind) (sa sb fa fb : Time),
        workoutStartTime a = .ok sa → workoutStartTime b = .ok sb →
        workoutFinishTime a = .ok fa → workoutFinishTime b = .ok fb →
        max sa sb ≤ min fa fb →
        workoutMerge a b k = .error (.valueError "Workouts should not overlap")) :=
  ⟨fun a b k fa fb ha hb hov => lapMerge_overlap_error a b k fa fb ha hb hov,
   fun a b k sa sb fa fb hsa hsb hfa hfb hov =>
     workoutMerge_overlap_error a b k sa sb fa fb hsa hsb hfa hfb hov⟩

/-- Witness for C2: laps `[0,5]` and `[3,9]` (and the workouts wrapping
them) overlap, and every merge kind fails. -/
theorem c2_witness :
    lapMerge ⟨0, some 1, some 1, some 1, [⟨[⟨5, 0, none, none⟩]⟩]⟩
        ⟨3, some 1, some 1, some 1, [⟨[⟨9, 0, none, none⟩]⟩]⟩ .mergeIntoSingleTrack =
      .error (.valueError "Laps should not overlap") ∧
    workoutMerge ⟨"a", "Run", [⟨0, some 1, some 1, some 1, [⟨[⟨5, 0, none, none⟩]⟩]⟩]⟩
        ⟨"b", "Run", [⟨3, some 1, some 1, some 1, [⟨[⟨9, 0, none, none⟩]⟩]⟩]⟩ .appendLaps =
      .error (.valueError "Workouts should not overlap") :=
  ⟨c2_overlapping_merge_always_fails.1 _ _ _ 5 9 (by rfl) (by rfl) (by decide),
   c2_overlapping_merge_always_fails.2 _ _ _ 0 3 5 9
     (by rfl) (by rfl) (by rfl) (by rfl) (by decide)⟩

/-- C6: for non-overlapping workouts and a single-lap policy, a lap count
different from one on either side fails with the lap-count `ValueError`
whose message carries both workouts' lap counts (and ids), before any
structural mutation — the check precedes the call into `Lap.merge`. -/
theorem c6_lap_count_error (a b : WorkoutNode) (k : WorkoutMergeKind)
    (sa sb fa fb : Time)
    (hsa : workoutStartTime a = .ok sa) (hsb : workoutStartTime b = .ok sb)
    (hfa : workoutFinishTime a = .ok fa) (hfb : workoutFinishTime b = .ok fb)
    (hov : ¬ max sa sb ≤ min fa fb)
    (hk : k = .mergeIntoSingleLap ∨ k = .mergeIntoSingleTrack)
    (hn : ¬ (a.laps.length = 1 ∧ b.laps.length = 1)) :
    workoutMerge a b k = .error (.valueError
      (lapCountMsg a.workoutId b.workoutId a.laps.length b.laps.length)) := by
  have hstep : ∀ lk, workoutLapMergeStep a b lk = .error (.valueError
      (lapCountMsg a.workoutId b.workoutId a.laps.length b.laps.length)) := by
    intro lk
    unfold workoutLapMergeStep
    rcases ha : a.laps with _ | ⟨x, _ | ⟨x2, xs⟩⟩ <;>
      rcases hb : b.laps with _ | ⟨y, _ | ⟨y2, ys⟩⟩ <;> simp_all
  have hfalse : overlapsIntervals sa fa sb fb = false := by
    simpa [overlapsIntervals] using hov
  unfold workoutMerge workoutOverlaps
  rw [hsa, hsb, hfa, hfb]
  rcases hk with hk | hk <;> subst hk <;> simp [hfalse, hstep]

/-- Witness for C6: a two-lap workout (`[0,5]∪[6,8]`) merged with a
one-lap workout (`[20,30]`) under the single-lap policy. -/
theorem c6_witness :
    workoutMerge
      ⟨"a", "Run", [⟨0, some 1, some 1, some 1, [⟨[⟨5, 0, none, none⟩]⟩]⟩,
                    ⟨6, some 1, some 1, some 1, [⟨[⟨8, 0, none, none⟩]⟩]⟩]⟩
      ⟨"b", "Run", [⟨20, some 1, some 1, some 1, [⟨[⟨30, 0, none, none⟩]⟩]⟩]⟩
      .mergeIntoSingleLap =
      .error (.valueError (lapCountMsg "a" "b" 2 1)) :=
  c6_lap_count_error _ _ _ 0 20 8 30 (by rfl) (by rfl) (by rfl) (by rfl)
    (by decide) (Or.inl rfl) (by decide)

/-- C7 counterexample: for the concrete overlapping laps `[0,5]` and
`[3,9]`, the overlap failure is `ValueError("Laps should not overlap")`
— a fixed message containing no digit at all, so it cannot carry the two
operands' `[start, finish]` intervals; the claim that the overlap error
carries both intervals is false on the code. -/
theorem c7_counterexample_message_has_no_intervals :
    lapMerge ⟨0, some 1, some 1, some 1, [⟨[⟨5, 0, none, none⟩]⟩]⟩
        ⟨3, some 1, some 1, some 1, [⟨[⟨9, 0, none, none⟩]⟩]⟩ .mergeIntoSingleLap =
      .error (.valueError "Laps should not overlap") ∧
    (∀ c ∈ "Laps should not overlap".data, ¬ c.isDigit) :=
  ⟨by rfl, by decide⟩

/-- C7 amended: when the overlap precondition fails, the raised error is a
`ValueError` with a fixed message (`"Laps should not overlap"` at lap
level, `"Workouts should not overlap"` at workout level) that does not
include the operands' `[start, finish]` intervals (the messages contain no
digits, hence no rendering of either interval). -/
theorem c7_amended_overlap_error_fixed_message :
    (∀ (a b : LapNode) (k : LapMergeKind) (fa fb : Time),
        lapFinishTime a = .ok fa → lapFinishTime b = .ok fb →
        max a.startTime b.startTime ≤ min fa fb →
        lapMerge a b k = .error (.valueError "Laps should not overlap")) ∧
    (∀ (a b : WorkoutNode) (k : WorkoutMergeKind) (sa sb fa fb : Time),
        workoutStartTime a = .ok sa → workoutStartTime b = .ok sb →
        workoutFinishTime a = .ok fa → workoutFinishTime b = .ok fb →
        max sa sb ≤ min fa fb →
        workoutMerge a b k = .error (.valueError "Workouts should not overlap")) ∧
    (∀ c ∈ "Laps should not overlap".data, ¬ c.isDigit) ∧
    (∀ c ∈ "Workouts should not overlap".data, ¬ c.isDigit) :=
  ⟨fun a b k fa fb ha hb hov => lapMerge_overlap_error a b k fa fb ha hb hov,
   fun a b k sa sb fa fb hsa hsb hfa hfb hov =>
     workoutMerge_overlap_error a b k sa sb fa fb hsa hsb hfa hfb hov,
   by decide, by decide⟩

/-- Witness for the amended C7 at the concrete overlapping laps `[0,5]`,
`[3,9]` and the workouts wrapping them. -/
theorem c7_amended_witness :
    lapMerge ⟨0, some 1, some 1, some 1, [⟨[⟨5, 0, none, none⟩]⟩]⟩
        ⟨3, some 1, some 1, some 1, [⟨[⟨9, 0, none, none⟩]⟩]⟩ .mergeIntoSingleTrack =
      .error (.valueError "Laps should not overlap") ∧
    workoutMerge ⟨"a", "Run", [⟨0, some 1, some 1, some 1, [⟨[⟨5, 0, none, none⟩]⟩]⟩]⟩
        ⟨"b", "Run", [⟨3, some 1, some 1, some 1, [⟨[⟨9, 0, none, none⟩]⟩]⟩]⟩
        .mergeIntoSingleLap =
      .error (.valueError "Workouts should not overlap") :=
  ⟨c7_amended_overlap_error_fixed_message.1 _ _ _ 5 9 (by rfl) (by rfl) (by decide),
   c7_amended_overlap_error_fixed_message.2.1 _ _ _ 0 3 5 9
     (by rfl) (by rfl) (by rfl) (by rfl) (by decide)⟩

unseal Rat.add Rat.mul List.merge List.mergeSort in
/-- C1: for the non-overlapping laps `c1LapA` (earlier) and `c1LapB`
(later), three of the four receiver/kind configurations do store the sums
`total_seconds = 600+300`, `distance_meters = 5000+4000`,
`calories = 100+50` and `start_time = min` — but the fourth
(`MERGE_INTO_SINGLE_LAP` with the *later* lap as receiver) raises
`AttributeError` instead: `self._root[:] = earlier._root[:]` moves the
earlier (donor) lap's child elements into the receiver, so the subsequent
`lap.total_seconds` read finds no `TotalTimeSeconds` element.  The claim's
"regardless of which of the two laps is the receiver" therefore fails on
the code. -/
theorem c1_aggregate_sums_and_receiver_later_crash :
    (∃ p, lapMerge c1LapA c1LapB .mergeIntoSingleLap = .ok p ∧
        p.1.totalSeconds = some (600 + 300) ∧
        p.1.distanceMeters = some (5000 + 4000) ∧
        p.1.calories = some (100 + 50) ∧
        p.1.startTime = min c1LapA.startTime c1LapB.startTime) ∧
    (∃ p, lapMerge c1LapA c1LapB .mergeIntoSingleTrack = .ok p ∧
        p.1.totalSeconds = some (600 + 300) ∧
        p.1.distanceMeters = some (5000 + 4000) ∧
        p.1.calories = some (100 + 50) ∧
        p.1.startTime = min c1LapA.startTime c1LapB.startTime) ∧
    (∃ p, lapMerge c1LapB c1LapA .mergeIntoSingleTrack = .ok p ∧
        p.1.totalSeconds = some (300 + 600) ∧
        p.1.distanceMeters = some (4000 + 5000) ∧
        p.1.calories = some (50 + 100) ∧
        p.1.startTime = min c1LapA.startTime c1LapB.startTime) ∧
    lapMerge c1LapB c1LapA .mergeIntoSingleLap = .error .attributeError :=
  ⟨⟨_, by rfl, by rfl, by rfl, by rfl, by rfl⟩,
   ⟨_, by rfl, by rfl, by rfl, by rfl, by rfl⟩,
   ⟨_, by rfl, by rfl, by rfl, by rfl, by rfl⟩,
   by rfl⟩

unseal Rat.add Rat.mul List.merge List.mergeSort in
/-- C9: with all three switches enabled, scaling a fully-populated
workout multiplies `distance_meters`, `cadence` and `watts` of every
trackpoint by the factor and changes nothing else — but on a trackpoint
whose optional `Cadence` element is absent, `trackpoint.cadence`
returns `None` and `None * scale_factor` raises `TypeError`, so the
claim's "including for trackpoints whose optional cadence or watts
elements are absent" fails on the code. -/
theorem c9_scale_elementwise_but_crashes_on_absent_cadence :
    workoutScale c9WorkoutFull 2 true true true =
      .ok ⟨"w1", "Biking", [⟨0, some 600, some 5000, some 100,
        [⟨[⟨0, 100 * 2, some (80 * 2), some (200 * 2)⟩]⟩]⟩]⟩ ∧
    workoutScale c9WorkoutNoCadence 2 true true true = .error .typeError :=
  ⟨by rfl, by rfl⟩

/-- C4: whenever a flatten-mode (`MERGE_INTO_SINGLE_TRACK`) lap merge
succeeds, the receiving lap's resulting (first) track has trackpoint times
non-decreasing in document order: `tp[i].time ≤ tp[i+1].time` for every
adjacent pair — the merge ends by re-sorting that track by time. -/
theorem c4_flatten_sorted_times (s o s' o' : LapNode)
    (h : lapMerge s o .mergeIntoSingleTrack = .ok (s', o')) :
    ∃ t0 ts, s'.tracks = t0 :: ts ∧
      List.Chain' (fun a b => a.time ≤ b.time) t0.trackpoints := by
  unfold lapMerge at h
  dsimp only at h
  split at h
  · cases h
  · cases h
  · split at h
    · split at h
      · cases h
      · split at h
        · cases h
        · obtain ⟨htr, ho, hst⟩ := lapMergeAggregates_ok_shape _ _ _ _ _ h
          exact ⟨_, _, htr, sortTrackpointsByTime_chain _⟩
    · split at h
      · cases h
      · split at h
        · cases h
        · split at h
          · cases h
          · obtain ⟨htr, ho, hst⟩ := lapMergeAggregates_ok_shape _ _ _ _ _ h
            exact ⟨_, _, htr, sortTrackpointsByTime_chain _⟩

unseal Rat.add Rat.mul List.merge List.mergeSort in
/-- Witness for C4: a concrete successful flatten merge (receiver is the
later lap here, so the sort genuinely has to interleave) and the sorted
conclusion. -/
theorem c4_witness :
    lapMerge
        ⟨20, some 300, some 4000, some 50,
         [⟨[⟨20, 500, none, none⟩, ⟨30, 4000, none, none⟩]⟩]⟩
        ⟨0, some 600, some 5000, some 100,
         [⟨[⟨0, 1000, none, none⟩, ⟨10, 5000, none, none⟩]⟩]⟩
        .mergeIntoSingleTrack =
      .ok (⟨0, some (300 + 600), some (4000 + 5000), some (50 + 100),
            [⟨[⟨0, 1000, none, none⟩, ⟨10, 5000, none, none⟩,
               ⟨20, 5500, none, none⟩, ⟨30, 9000, none, none⟩]⟩]⟩,
           ⟨0, some 600, some 5000, some 100, [⟨[]⟩]⟩) ∧
    (∃ t0 ts,
      ([(⟨[⟨0, 1000, none, none⟩, ⟨10, 5000, none, none⟩,
           ⟨20, 5500, none, none⟩, ⟨30, 9000, none, none⟩]⟩ : TrackNode)] :
        List TrackNode) = t0 :: ts ∧
      List.Chain' (fun a b => a.time ≤ b.time) t0.trackpoints) := by
  have h : lapMerge
      ⟨20, some 300, some 4000, some 50,
       [⟨[⟨20, 500, none, none⟩, ⟨30, 4000, none, none⟩]⟩]⟩
      ⟨0, some 600, some 5000, some 100,
       [⟨[⟨0, 1000, none, none⟩, ⟨10, 5000, none, none⟩]⟩]⟩
      .mergeIntoSingleTrack =
      .ok (⟨0, some (300 + 600), some (4000 + 5000), some (50 + 100),
            [⟨[⟨0, 1000, none, none⟩, ⟨10, 5000, none, none⟩,
               ⟨20, 5500, none, none⟩, ⟨30, 9000, none, none⟩]⟩]⟩,
           ⟨0, some 600, some 5000, some 100, [⟨[]⟩]⟩) := by rfl
  exact ⟨h, c4_flatten_sorted_times _ _ _ _ h⟩

/-- C8 counterexample: the timestamp year-999 `05-17T10:30:05.250000`
*is* representable in the canonical fractional-seconds layout (the second
conjunct parses its canonical spelling back exactly), but the platform's
`%Y` renders the year unpadded, so `to_tcx_time_string` emits a
three-digit year that neither accepted layout (`%Y` requires exactly four
digits) can parse: `parse_time(to_tcx_time_string(t))` raises `ValueError`
instead of returning `t`, refuting the claim as stated. -/
theorem c8_counterexample_unpadded_year :
    ValidDT ⟨999, 5, 17, 10, 30, 5, 250000⟩ ∧
    parseCanonicalChars ("0999-05-17T10:30:05.250000Z".data) =
      some ⟨999, 5, 17, 10, 30, 5, 250000⟩ ∧
    to_tcx_time_string ⟨999, 5, 17, 10, 30, 5, 250000⟩ =
      "999-05-17T10:30:05.250000Z" ∧
    parse_time (to_tcx_time_string ⟨999, 5, 17, 10, 30, 5, 250000⟩) =
      .error (.valueError
        "Unable to parse time string: [999-05-17T10:30:05.250000Z]") :=
  ⟨by decide, by decide, by rfl, by rfl⟩

/-- C8 amended: for every timestamp representable in the canonical
fractional-seconds layout whose year has four digits (at least 1000 — for
smaller years the platform renders `%Y` unpadded and the output parses
under neither layout, see the counterexample),
`parse_time(to_tcx_time_string(t)) = t`; the formatter's output then
matches the canonical layout alone, whatever layout the value originally
came from (formatting is a function of the value only); and `parse_time`
accepts both supported layouts, producing equal instants for the same
whole-second time written in either. -/
theorem c8_time_codec_round_trip (t : PyDateTime) (hy : 1000 ≤ t.year)
    (h : ValidDT t) :
    parse_time (to_tcx_time_string t) = .ok t ∧
    parseCanonicalChars (to_tcx_time_string t).data = some t ∧
    (t.usec = 0 → parse_time ⟨fmtWholeSeconds t⟩ = .ok t) := by
  have hc : parseCanonicalChars (to_tcx_time_string t).data = some t :=
    parseCanonical_fmt t hy h
  refine ⟨?_, hc, ?_⟩
  · unfold parse_time
    rw [hc]
  · intro h0
    unfold parse_time
    rw [show (⟨fmtWholeSeconds t⟩ : String).data = fmtWholeSeconds t from rfl,
      parseCanonical_whole_none t hy h, parseWhole_fmt t hy h h0]

/-- Witness for the amended C8 at `2020-05-17T10:30:05.250000Z` and the
whole-second instant `2020-05-17T10:30:05` in both layouts. -/
theorem c8_witness :
    (1000 ≤ 2020) ∧ ValidDT ⟨2020, 5, 17, 10, 30, 5, 250000⟩ ∧
    parse_time (to_tcx_time_string ⟨2020, 5, 17, 10, 30, 5, 250000⟩) =
      .ok ⟨2020, 5, 17, 10, 30, 5, 250000⟩ ∧
    parse_time (to_tcx_time_string ⟨2020, 5, 17, 10, 30, 5, 0⟩) =
      .ok ⟨2020, 5, 17, 10, 30, 5, 0⟩ ∧
    parse_time ⟨fmtWholeSeconds ⟨2020, 5, 17, 10, 30, 5, 0⟩⟩ =
      .ok ⟨2020, 5, 17, 10, 30, 5, 0⟩ :=
  ⟨by decide, by decide,
   (c8_time_codec_round_trip ⟨2020, 5, 17, 10, 30, 5, 250000⟩ (by decide)
     (by decide)).1,
   (c8_time_codec_round_trip ⟨2020, 5, 17, 10, 30, 5, 0⟩ (by decide)
     (by decide)).1,
   (c8_time_codec_round_trip ⟨2020, 5, 17, 10, 30, 5, 0⟩ (by decide)
     (by decide)).2.2 rfl⟩

end Tcx
